import Mathlib

/-!
Verification of the YouTube-video RAG chatbot (`src/app.py`).

The script is a thin Streamlit orchestration layer.  We shallowly embed its
pure logic in Lean:

* Python `str.split` / `str.splitlines` are modelled character-by-character
  (fuel-indexed so that every definition reduces in the kernel);
* the external YouTube transcript service, the FAISS similarity search and
  the Groq chat completion are oracle parameters (`api`, `busca`, `invocar`);
* Streamlit session state (`historico_chat`, `base_vetores`) becomes an
  explicit `SessionState` record threaded through the two UI handlers;
* exceptions of the chat invocation are modelled with `Except`; the mutation
  that happened before the raise is kept in the returned state, exactly as
  `st.session_state` keeps it in the Python program.

The text chunker (`CharacterTextSplitter`) lives in the external langchain
library, so it is modelled from the specification instead of from source;
this is flagged on its definition.
-/

/-- One transcript fragment as returned by the transcript service.  The
service also reports `start` and `duration`, but the program reads only the
`text` field, so only it is modelled. -/
structure Trecho where
  text : String
deriving DecidableEq, Inhabited

/-- A retrieved document as returned by `similarity_search`; the program
reads only `page_content`. -/
structure Documento where
  page_content : String
deriving DecidableEq, Inhabited

/-- Chat messages: `AIMessage` / `HumanMessage` from langchain-core, carrying
their text content. -/
inductive Message where
  | ai (content : String)
  | human (content : String)
deriving DecidableEq, Inhabited

/-- Fuel-indexed worker for Python `str.split(sep)` (non-empty `sep`): scan
left to right, cut at each non-overlapping occurrence of `sep`.  `acc` holds
the reversed characters of the current piece.  The fuel is instantiated with
the length of the input, which is always sufficient since each step consumes
at least one character. -/
def pySplitAuxF (sep : List Char) : Nat → List Char → List Char → List (List Char)
  | _, acc, [] => [acc.reverse]
  | 0, acc, _ :: _ => [acc.reverse]
  | fuel + 1, acc, c :: cs =>
    if sep ≠ [] ∧ sep.isPrefixOf (c :: cs) then
      acc.reverse :: pySplitAuxF sep fuel [] (List.drop sep.length (c :: cs))
    else
      pySplitAuxF sep fuel (c :: acc) cs

/-- Python `s.split(sep)` for a non-empty separator, as used on line 29 of
`src/app.py`.  Always returns a non-empty list, like its Python original. -/
def pySplit (s sep : String) : List String :=
  (pySplitAuxF sep.toList s.toList.length [] s.toList).map String.mk

/-- Line 29 of `src/app.py`: `link.split('v=')[-1].split('&')[0]`.  Python
`[-1]` / `[0]` on the never-empty result of `split` become `getLastD` /
`headD` with a default that is never used. -/
def extrair_video_id (link : String) : String :=
  (pySplit ((pySplit link "v=").getLastD "") "&").headD ""

/-- Line 37 of `src/app.py`:
`f'Erro ao processar o vídeo: {link}. Erro: {e}'`, with the exception
rendered as its message string. -/
def mensagem_aviso (link erro : String) : String :=
  "Erro ao processar o vídeo: " ++ link ++ ". Erro: " ++ erro

/-- `obter_transcricao_youtube` (lines 22-38 of `src/app.py`).  The external
`YouTubeTranscriptApi.get_transcript` is the oracle `api`, taking the video
id and the language preference list and either returning the fragment list
or failing with an error message.  The Python function accumulates the
document in `documento` and emits warnings through `st.warning`; we return
the pair (document, warnings emitted in order). -/
def obter_transcricao_youtube (api : String → List String → Except String (List Trecho))
    (links : List String) : String × List String :=
  links.foldl
    (fun acc link =>
      match api (extrair_video_id link) ["pt", "en"] with
      | Except.ok transcricao =>
        (transcricao.foldl (fun documento trecho => documento ++ trecho.text ++ " ") acc.1, acc.2)
      | Except.error e => (acc.1, acc.2 ++ [mensagem_aviso link e]))
    ("", [])

/-- The transcript text contributed to the document by one link: the
concatenation of its fragment texts each followed by one space, or `""` when
the service fails for that link. -/
def contribuicao (api : String → List String → Except String (List Trecho))
    (link : String) : String :=
  match api (extrair_video_id link) ["pt", "en"] with
  | Except.ok transcricao => String.join (transcricao.map (fun t => t.text ++ " "))
  | Except.error _ => ""

/-- The warning emitted for one link, if any. -/
def aviso_gerado (api : String → List String → Except String (List Trecho))
    (link : String) : Option String :=
  match api (extrair_video_id link) ["pt", "en"] with
  | Except.ok _ => none
  | Except.error e => some (mensagem_aviso link e)

/-- The fragment texts of all links the service succeeds on, in link order. -/
def textos_com_sucesso (api : String → List String → Except String (List Trecho))
    (links : List String) : List String :=
  List.flatten (links.map (fun link =>
    match api (extrair_video_id link) ["pt", "en"] with
    | Except.ok transcricao => transcricao.map (fun t => t.text)
    | Except.error _ => []))

/-- Whether the transcript call for one link succeeded. -/
def e_sucesso (r : Except String (List Trecho)) : Bool :=
  match r with
  | Except.ok _ => true
  | Except.error _ => false

/-- Python `str.splitlines` as used on line 117 (`links_videos.splitlines()`):
cut at `\n`, `\r\n` and `\r`, no trailing empty line.  (The rarer Unicode
line boundaries Python also honours are not exercised by the program and are
omitted.) -/
def pySplitlinesAux : List Char → List Char → List (List Char)
  | acc, [] => if acc.isEmpty then [] else [acc.reverse]
  | acc, '\r' :: '\n' :: cs => acc.reverse :: pySplitlinesAux [] cs
  | acc, '\n' :: cs => acc.reverse :: pySplitlinesAux [] cs
  | acc, '\r' :: cs => acc.reverse :: pySplitlinesAux [] cs
  | acc, c :: cs => pySplitlinesAux (c :: acc) cs

/-- Python `s.splitlines()`. -/
def pySplitlines (s : String) : List String :=
  (pySplitlinesAux [] s.toList).map String.mk

/-- One segment of a Python format template: literal text or a replacement
field. -/
inductive SegFmt where
  | lit (s : String)
  | campo (nome : String)
deriving DecidableEq

/-- Parser for Python `str.format` templates restricted to plain named
fields (the only shape occurring in `src/app.py`): literal text up to each
open brace, then the field name up to the matching close brace.  Fuel is
instantiated with the template length, which always suffices. -/
def parseFormatAuxF : Nat → List Char → List Char → List SegFmt
  | _, acc, [] => if acc.isEmpty then [] else [SegFmt.lit (String.mk acc.reverse)]
  | 0, acc, _ :: _ => if acc.isEmpty then [] else [SegFmt.lit (String.mk acc.reverse)]
  | fuel + 1, acc, c :: cs =>
    if c = '\x7b' then
      (if acc.isEmpty then [] else [SegFmt.lit (String.mk acc.reverse)]) ++
        SegFmt.campo (String.mk (cs.takeWhile (fun d => d ≠ '\x7d'))) ::
          parseFormatAuxF fuel [] ((cs.dropWhile (fun d => d ≠ '\x7d')).drop 1)
    else
      parseFormatAuxF fuel (c :: acc) cs

/-- Python `template.format(...)` with named arguments supplied by `env`:
parse the template into segments, substitute each field simultaneously
(substituted values are never re-scanned, exactly as in Python). -/
def pyFormat (template : String) (env : String → String) : String :=
  String.join ((parseFormatAuxF template.toList.length [] template.toList).map
    (fun seg =>
      match seg with
      | SegFmt.lit s => s
      | SegFmt.campo nome => env nome))

/-- The template literal of `montar_prompt` (lines 68-79 of `src/app.py`),
exactly as the Python triple-quoted string, braces escaped for Lean. -/
def template_qa : String :=
  "\n    Use os trechos fornecidos para responder à pergunta do usuário de forma clara e concisa.\n    Se necessário, complemente a resposta utilizando o histórico do chat.\n    Se não souber a resposta com base nos trechos fornecidos e no histórico do chat, diga que não sabe, sem tentar adivinhar ou inventar informações.\n    Se possível, seja direto e objetivo ao responder.\n\n    ### Trechos:\n    \x7bfragmentos\x7d\n\n    ### Pergunta:\n    \x7bpergunta\x7d\n    "

/-- `montar_prompt` (lines 65-87 of `src/app.py`):
`contexto = '\n'.join([f'{indice}. {fragmento.page_content}\n' ...])` with
`enumerate(fragmentos, 1)`, then `template.format(fragmentos=contexto,
pergunta=pergunta)`. -/
def montar_prompt (fragmentos : List Documento) (pergunta : String) : String :=
  let contexto := String.intercalate "\n"
    ((List.enumFrom 1 fragmentos).map
      (fun par => Nat.repr par.1 ++ ". " ++ par.2.page_content ++ "\n"))
  pyFormat template_qa
    (fun nome => if nome = "fragmentos" then contexto
                 else if nome = "pergunta" then pergunta else "")

/-- Modelled from the spec: the overlap-shrinking step of the chunker.  The
chunker itself is the external langchain `CharacterTextSplitter`, absent
from `src/`; spec §4.2 prescribes chunks of target length 500 with
200-character overlap, separated on spaces.  This drops words from the front
of the running window until its total length (words plus single-space
separators) is within the overlap budget and the incoming word still fits
the chunk size.  An empty window is returned unchanged (the loop invariant
`total = 0` makes the guard false there). -/
def encolher (chunk_size chunk_overlap len_d : Nat) :
    List String → Nat → List String × Nat
  | [], total => ([], total)
  | w :: resto, total =>
    if chunk_overlap < total ∨ (chunk_size < total + len_d + 1 ∧ 0 < total) then
      encolher chunk_size chunk_overlap len_d resto
        (total - (w.length + (if resto.isEmpty then 0 else 1)))
    else (w :: resto, total)

/-- Modelled from the spec: greedy merge of space-separated words into
chunks of at most `chunk_size` characters, each chunk after the first
keeping about `chunk_overlap` trailing characters of its predecessor
(spec §4.2).  State: (chunks emitted, current window, window length counting
single-space separators). -/
def fundir_pedacos (chunk_size chunk_overlap : Nat) (partes : List String) : List String :=
  let fim := partes.foldl
    (fun (st : List String × List String × Nat) d =>
      let (docs, atual, total) := st
      let sep := if atual.isEmpty then 0 else 1
      if chunk_size < total + d.length + sep then
        let docs' :=
          if atual.isEmpty then docs
          else
            let doc := String.intercalate " " atual
            if doc = "" then docs else docs ++ [doc]
        let enc := encolher chunk_size chunk_overlap d.length atual total
        (docs', enc.1 ++ [d], enc.2 + d.length + (if enc.1.isEmpty then 0 else 1))
      else
        (docs, atual ++ [d], total + d.length + sep))
    ([], [], 0)
  let doc := String.intercalate " " fim.2.1
  if doc = "" then fim.1 else fim.1 ++ [doc]

/-- Modelled from the spec: the chunking performed by
`CharacterTextSplitter(separator=' ', chunk_size, chunk_overlap)` in
`obter_base_vetores_dos_textos` (lines 44-52 of `src/app.py`) — split the
document on spaces, then merge greedily with overlap. -/
def dividir_texto (chunk_size chunk_overlap : Nat) (texto : String) : List String :=
  fundir_pedacos chunk_size chunk_overlap (pySplit texto " ")

/-- The in-memory vector index.  Embedding vectors are produced by an
external model and queried through FAISS; only the chunks it stores are
observable in this embedding, similarity search itself is an oracle of the
question handler. -/
structure BaseVetores where
  pedacos : List String
deriving DecidableEq, Inhabited

/-- `obter_base_vetores_dos_textos` (lines 40-63 of `src/app.py`): chunk
with size 500 / overlap 200 and index the chunks. -/
def obter_base_vetores_dos_textos (texto : String) : BaseVetores :=
  ⟨dividir_texto 500 200 texto⟩

/-- Streamlit session state of `main`: `st.session_state.historico_chat`
and `st.session_state.base_vetores`. -/
structure SessionState where
  historico_chat : List Message
  base_vetores : Option BaseVetores
deriving DecidableEq, Inhabited

/-- The greeting appended on line 115 of `src/app.py`. -/
def saudacao : String := "Olá, sou um bot. Como posso ajudar?"

/-- The "Processar Vídeos" button handler (lines 111-120 of `src/app.py`):
append the greeting to the chat history, fetch the consolidated transcript
of the pasted links, rebuild the vector index.  Warnings emitted inside
`obter_transcricao_youtube` go to the UI and are not part of the state. -/
def processar_videos (api : String → List String → Except String (List Trecho))
    (links_videos : String) (st : SessionState) : SessionState :=
  let historico1 := st.historico_chat ++ [Message.ai saudacao]
  let texto_completo := (obter_transcricao_youtube api (pySplitlines links_videos)).1
  { historico_chat := historico1
    base_vetores := some (obter_base_vetores_dos_textos texto_completo) }

/-- The question handler (lines 122-144 of `src/app.py`).  `busca` is the
FAISS `similarity_search` oracle (index, question, k); `invocar` is the Groq
`chat.invoke` oracle returning the response content or raising.  The handler
runs only when a vector index exists; `st.chat_input` may yield no value
(`none`) and the empty string is explicitly ignored.  On success the
assembled prompt is appended, the model invoked, the prompt popped and
replaced by the raw question plus the answer.  When `invocar` raises, the
history keeps the already-appended prompt (Python session state is not
rolled back) and the error is surfaced in the second component. -/
def enviar_pergunta (busca : BaseVetores → String → Nat → List Documento)
    (invocar : List Message → Except String String)
    (st : SessionState) (pergunta : Option String) : SessionState × Option String :=
  match st.base_vetores with
  | none => (st, none)
  | some base =>
    match pergunta with
    | none => (st, none)
    | some p =>
      if p = "" then (st, none)
      else
        let documentos_relevantes := busca base p 3
        let prompt := montar_prompt documentos_relevantes p
        let historico1 := st.historico_chat ++ [Message.human prompt]
        match invocar historico1 with
        | Except.error e => ({ st with historico_chat := historico1 }, some e)
        | Except.ok resposta =>
          ({ st with historico_chat :=
              historico1.dropLast ++ [Message.human p, Message.ai resposta] }, none)

/-- A transcript oracle that always fails (e.g. no network). -/
def api_falha : String → List String → Except String (List Trecho) :=
  fun _ _ => Except.error "indisponivel"

/-- A transcript oracle with one known video, `abc`, a single fragment. -/
def api_um : String → List String → Except String (List Trecho) :=
  fun id _ => if id = "abc" then Except.ok [⟨"ola"⟩] else Except.error "erro"

/-- A transcript oracle where video `ok1` succeeds with two fragments and
every other id fails, mirroring the two-link mixed scenario of the spec. -/
def api_mista : String → List String → Except String (List Trecho) :=
  fun id _ =>
    if id = "ok1" then Except.ok [⟨"bom"⟩, ⟨"dia"⟩]
    else Except.error "TranscriptsDisabled"

/-- A fixed retrieval oracle used by the witnesses. -/
def busca_teste : BaseVetores → String → Nat → List Documento :=
  fun _ _ _ => [⟨"trecho um"⟩]

/-- A chat oracle that always answers the same content. -/
def invocar_ok : List Message → Except String String :=
  fun _ => Except.ok "resposta teste"

/-- A chat oracle that always raises. -/
def invocar_erro : List Message → Except String String :=
  fun _ => Except.error "falha de rede"

/-- A small vector index used by the witnesses. -/
def base_teste : BaseVetores := ⟨["x"]⟩

/-- A session state after one processing action, used by the witnesses. -/
def st_teste : SessionState :=
  { historico_chat := [Message.ai saudacao], base_vetores := some base_teste }

/-- Ninety-one distinct ten-character words; joined by single spaces they
form a document of exactly 1000 characters. -/
def palavras_doc : List String :=
  (List.range 91).map (fun i => "palavra" ++ Nat.repr (100 + i))

/-- A concrete 1000-character space-separated document. -/
def doc1000 : String := String.intercalate " " palavras_doc

/-- The literal text of `template_qa` before the `fragmentos` field. -/
def parte_inicial : String :=
  "\n    Use os trechos fornecidos para responder à pergunta do usuário de forma clara e concisa.\n    Se necessário, complemente a resposta utilizando o histórico do chat.\n    Se não souber a resposta com base nos trechos fornecidos e no histórico do chat, diga que não sabe, sem tentar adivinhar ou inventar informações.\n    Se possível, seja direto e objetivo ao responder.\n\n    ### Trechos:\n    "

/-- The literal text of `template_qa` between the two fields. -/
def parte_meio : String := "\n\n    ### Pergunta:\n    "

/-- The literal text of `template_qa` after the `pergunta` field. -/
def parte_final : String := "\n    "

/-! ### List and string helper lemmas -/

theorem getLastD_map {α β : Type} (f : α → β) :
    ∀ (l : List α) (d : α), (l.map f).getLastD (f d) = f (l.getLastD d) := by
  intro l
  induction l with
  | nil => intro d; rfl
  | cons a l ih =>
    intro d
    rw [List.map_cons, List.getLastD_cons, List.getLastD_cons, ih]

theorem headD_map {α β : Type} (f : α → β) (l : List α) (d : α) :
    (l.map f).headD (f d) = f (l.headD d) := by
  cases l <;> rfl

theorem string_foldl_append (l : List String) :
    ∀ d : String, l.foldl (fun a b => a ++ b) d = d ++ String.join l := by
  induction l with
  | nil => intro d; simp [String.join, String.append_empty]
  | cons a l ih =>
    intro d
    rw [List.foldl_cons, ih]
    have ha : String.join (a :: l) = a ++ String.join l := by
      show (a :: l).foldl (fun a b => a ++ b) "" = _
      rw [List.foldl_cons, ih, String.empty_append]
    rw [ha, String.append_assoc]

theorem string_join_cons (a : String) (l : List String) :
    String.join (a :: l) = a ++ String.join l := by
  show (a :: l).foldl (fun a b => a ++ b) "" = _
  rw [List.foldl_cons, string_foldl_append, String.empty_append]

theorem string_join_append (l₁ l₂ : List String) :
    String.join (l₁ ++ l₂) = String.join l₁ ++ String.join l₂ := by
  induction l₁ with
  | nil => simp [String.join, String.empty_append]
  | cons a l ih =>
    rw [List.cons_append, string_join_cons, string_join_cons, ih, String.append_assoc]

theorem string_join_flatten (L : List (List String)) :
    String.join L.flatten = String.join (L.map String.join) := by
  induction L with
  | nil => rfl
  | cons a L ih =>
    rw [List.flatten_cons, string_join_append, List.map_cons, string_join_cons, ih]

/-! ### Behaviour of the Python `split` embedding -/

theorem pySplitAuxF_sem_ocorrencia (sep : List Char) :
    ∀ (fuel : Nat) (l acc : List Char), l.length ≤ fuel → ¬ (sep <:+: l) →
      pySplitAuxF sep fuel acc l = [acc.reverse ++ l] := by
  intro fuel
  induction fuel with
  | zero =>
    intro l acc hlen _
    have hl : l = [] := List.length_eq_zero.mp (Nat.le_zero.mp hlen)
    subst hl
    simp [pySplitAuxF]
  | succ n ih =>
    intro l acc hlen hocc
    cases l with
    | nil => simp [pySplitAuxF]
    | cons c cs =>
      have hpre : ¬ sep.isPrefixOf (c :: cs) := by
        intro hp
        exact hocc (List.isPrefixOf_iff_prefix.mp hp).isInfix
      have hocc' : ¬ (sep <:+: cs) := fun h => hocc (List.infix_cons h)
      have hlen' : cs.length ≤ n := by
        simp only [List.length_cons] at hlen
        omega
      rw [pySplitAuxF, if_neg (by simp [hpre]), ih cs (c :: acc) hlen' hocc']
      simp

theorem pySplitAuxF_cabeca (a : Char) :
    ∀ (fuel : Nat) (l acc : List Char), l.length ≤ fuel →
      (pySplitAuxF [a] fuel acc l).headD []
        = acc.reverse ++ l.takeWhile (fun c => c ≠ a) := by
  intro fuel
  induction fuel with
  | zero =>
    intro l acc hlen
    have hl : l = [] := List.length_eq_zero.mp (Nat.le_zero.mp hlen)
    subst hl
    simp [pySplitAuxF]
  | succ n ih =>
    intro l acc hlen
    cases l with
    | nil => simp [pySplitAuxF]
    | cons c cs =>
      have hlen' : cs.length ≤ n := by
        simp only [List.length_cons] at hlen
        omega
      by_cases hca : a = c
      · subst hca
        rw [pySplitAuxF, if_pos (by simp [List.isPrefixOf])]
        simp
      · rw [pySplitAuxF, if_neg (by simp [List.isPrefixOf]; intro h; exact absurd h hca),
          ih cs (c :: acc) hlen']
        rw [List.takeWhile_cons, if_pos (by simp [Ne.symm hca])]
        simp

theorem pySplitAuxF_ultimo :
    ∀ (fuel : Nat) (p t acc : List Char) (d : List Char),
      (p ++ 'v' :: '=' :: t).length ≤ fuel → ¬ (['v', '='] <:+: t) →
      (pySplitAuxF ['v', '='] fuel acc (p ++ 'v' :: '=' :: t)).getLastD d = t := by
  intro fuel
  induction fuel with
  | zero =>
    intro p t acc d hlen _
    simp [List.length_append] at hlen
  | succ n ih =>
    intro p t acc d hlen hocc
    cases p with
    | nil =>
      rw [List.nil_append]
      rw [pySplitAuxF, if_pos (by simp [List.isPrefixOf])]
      have hdrop : List.drop (['v', '='] : List Char).length ('v' :: '=' :: t) = t := rfl
      rw [hdrop, pySplitAuxF_sem_ocorrencia ['v', '='] n t []
        (by simp at hlen; omega) hocc]
      rfl
    | cons c p' =>
      rw [List.cons_append]
      by_cases hpre : (['v', '='] : List Char).isPrefixOf (c :: (p' ++ 'v' :: '=' :: t))
      · cases p' with
        | nil =>
          exfalso
          simp [List.isPrefixOf] at hpre
        | cons c2 p'' =>
          rw [List.cons_append] at hpre ⊢
          simp only [List.isPrefixOf, Bool.and_eq_true, beq_iff_eq] at hpre
          obtain ⟨hc, hc2, -⟩ := hpre
          subst hc hc2
          rw [pySplitAuxF, if_pos (by simp [List.isPrefixOf])]
          have hdrop : List.drop (['v', '='] : List Char).length
              ('v' :: '=' :: (p'' ++ 'v' :: '=' :: t)) = p'' ++ 'v' :: '=' :: t := rfl
          rw [hdrop, List.getLastD_cons]
          exact ih p'' t [] acc.reverse (by simp [List.length_append] at hlen ⊢; omega) hocc
      · rw [pySplitAuxF, if_neg (fun hand => hpre hand.2)]
        exact ih p' t (c :: acc) d (by simp [List.length_append] at hlen ⊢; omega) hocc

theorem string_toList_append (s t : String) : (s ++ t).toList = s.toList ++ t.toList :=
  String.data_append s t

theorem pySplit_amp_cabeca (t : String) :
    (pySplit t "&").headD "" = String.mk (t.toList.takeWhile (fun c => c ≠ '&')) := by
  have hamp : ("&" : String).toList = ['&'] := rfl
  rw [pySplit, hamp, show ("" : String) = String.mk [] from rfl,
    headD_map String.mk _ [],
    pySplitAuxF_cabeca '&' t.toList.length t.toList [] (le_refl _)]
  rfl

theorem pySplit_v_ultimo (p t : String) (hocc : ¬ (['v', '='] <:+: t.toList)) :
    (pySplit (p ++ "v=" ++ t) "v=").getLastD "" = t := by
  have hv : ("v=" : String).toList = ['v', '='] := rfl
  have hs : (p ++ "v=" ++ t).toList = p.toList ++ 'v' :: '=' :: t.toList := by
    rw [string_toList_append, string_toList_append, hv, List.append_assoc]
    rfl
  rw [pySplit, hv, hs, show ("" : String) = String.mk [] from rfl,
    getLastD_map String.mk _ [],
    pySplitAuxF_ultimo _ p.toList t.toList [] [] (le_refl _) hocc]
  rfl

theorem pySplit_v_ausente (link : String) (hocc : ¬ (['v', '='] <:+: link.toList)) :
    (pySplit link "v=").getLastD "" = link := by
  have hv : ("v=" : String).toList = ['v', '='] := rfl
  rw [pySplit, hv,
    pySplitAuxF_sem_ocorrencia ['v', '='] link.toList.length link.toList [] (le_refl _) hocc]
  rfl

/-- Claim C2: for links of the form `prefixo ++ "v=" ++ resto` (with no
further `v=` in `resto`, so that `resto` is what follows the marker the
Python `split('v=')[-1]` selects), identifier extraction returns `resto`
truncated at its first `&` — `takeWhile (· ≠ '&')` is exactly "the substring
following `v=` truncated at the first `&`". -/
theorem extrair_apos_ultimo_v (p t : String) (hocc : ¬ (['v', '='] <:+: t.toList)) :
    extrair_video_id (p ++ "v=" ++ t)
      = String.mk (t.toList.takeWhile (fun c => c ≠ '&')) := by
  rw [extrair_video_id, pySplit_v_ultimo p t hocc, pySplit_amp_cabeca]

/-- Witness for C2, the concrete instance of the claim:
`".../watch?v=ABC123&t=5"` yields `"ABC123"`. -/
theorem extrair_apos_ultimo_v_witness :
    ¬ (['v', '='] <:+: ("ABC123&t=5" : String).toList)
    ∧ extrair_video_id "https://www.youtube.com/watch?v=ABC123&t=5" = "ABC123" := by
  refine ⟨by decide, ?_⟩
  have h := extrair_apos_ultimo_v "https://www.youtube.com/watch?" "ABC123&t=5" (by decide)
  rw [show ("https://www.youtube.com/watch?" ++ "v=" ++ "ABC123&t=5" : String)
      = "https://www.youtube.com/watch?v=ABC123&t=5" from rfl] at h
  rw [h]
  rfl

/-- Claim C10: a link with no occurrence of `v=` does not make extraction
fail; the whole link (truncated at its first `&`, if any) is returned as the
video id, so malformed links surface only as per-video transcript failures. -/
theorem extrair_sem_v (link : String) (hocc : ¬ (['v', '='] <:+: link.toList)) :
    extrair_video_id link = String.mk (link.toList.takeWhile (fun c => c ≠ '&')) := by
  rw [extrair_video_id, pySplit_v_ausente link hocc, pySplit_amp_cabeca]

/-- Witness for C10 at a concrete malformed link. -/
theorem extrair_sem_v_witness :
    ¬ (['v', '='] <:+: ("https://youtu.be/abc&x" : String).toList)
    ∧ extrair_video_id "https://youtu.be/abc&x" = "https://youtu.be/abc" := by
  refine ⟨by decide, ?_⟩
  rw [extrair_sem_v "https://youtu.be/abc&x" (by decide)]
  rfl

/-! ### Behaviour of the transcript fetcher -/

theorem foldl_trechos (ts : List Trecho) :
    ∀ d : String,
      ts.foldl (fun documento trecho => documento ++ trecho.text ++ " ") d
        = d ++ String.join (ts.map (fun t => t.text ++ " ")) := by
  induction ts with
  | nil => intro d; simp [String.join, String.append_empty]
  | cons t ts ih =>
    intro d
    rw [List.foldl_cons, ih, List.map_cons, string_join_cons]
    simp [String.append_assoc]

theorem obter_foldl (api : String → List String → Except String (List Trecho)) :
    ∀ (links : List String) (acc : String × List String),
      links.foldl
        (fun acc link =>
          match api (extrair_video_id link) ["pt", "en"] with
          | Except.ok transcricao =>
            (transcricao.foldl (fun documento trecho => documento ++ trecho.text ++ " ") acc.1,
              acc.2)
          | Except.error e => (acc.1, acc.2 ++ [mensagem_aviso link e]))
        acc
      = (acc.1 ++ String.join (links.map (contribuicao api)),
         acc.2 ++ links.filterMap (aviso_gerado api)) := by
  intro links
  induction links with
  | nil => intro acc; simp [String.join, String.append_empty]
  | cons link ls ih =>
    intro acc
    rw [List.foldl_cons, ih]
    cases hapi : api (extrair_video_id link) ["pt", "en"] with
    | ok ts =>
      simp only [hapi, foldl_trechos]
      rw [List.map_cons, string_join_cons,
        List.filterMap_cons_none (show aviso_gerado api link = none by simp [aviso_gerado, hapi]),
        String.append_assoc]
      have hc : contribuicao api link = String.join (ts.map (fun t => t.text ++ " ")) := by
        simp [contribuicao, hapi]
      rw [hc]
    | error e =>
      simp only [hapi]
      rw [List.map_cons, string_join_cons,
        List.filterMap_cons_some
          (show aviso_gerado api link = some (mensagem_aviso link e) by simp [aviso_gerado, hapi])]
      have hc : contribuicao api link = "" := by simp [contribuicao, hapi]
      rw [hc, String.empty_append, List.append_assoc, List.singleton_append]

theorem obter_caracterizacao (api : String → List String → Except String (List Trecho))
    (links : List String) :
    obter_transcricao_youtube api links
      = (String.join (links.map (contribuicao api)), links.filterMap (aviso_gerado api)) := by
  rw [obter_transcricao_youtube, obter_foldl]
  rw [String.empty_append]
  rfl

theorem string_join_vazios : ∀ (l : List String), (∀ x ∈ l, x = "") → String.join l = "" := by
  intro l
  induction l with
  | nil => intro _; rfl
  | cons a l ih =>
    intro h
    rw [string_join_cons, h a (List.mem_cons_self a l), String.empty_append]
    exact ih (fun x hx => h x (List.mem_cons_of_mem a hx))

theorem textos_join (api : String → List String → Except String (List Trecho)) :
    ∀ links : List String,
      String.join (links.map (contribuicao api))
        = String.join ((textos_com_sucesso api links).map (fun t => t ++ " ")) := by
  intro links
  induction links with
  | nil => rfl
  | cons link ls ih =>
    simp only [textos_com_sucesso] at ih ⊢
    rw [List.map_cons, string_join_cons, ih]
    cases hapi : api (extrair_video_id link) ["pt", "en"] with
    | ok ts =>
      simp only [List.map_cons, hapi, List.flatten_cons, List.map_append,
        string_join_append, List.map_map]
      rw [contribuicao, hapi]
      simp [Function.comp_def]
    | error e =>
      simp only [List.map_cons, hapi, List.flatten_cons, List.map_append,
        string_join_append]
      rw [contribuicao, hapi]
      rfl

/-- Claim C3: the transcript fetcher never raises (it is a total function of
its oracle); each failing link yields exactly one warning, in link order,
whose text names that link; and the document returned contains the full
fragment text of every link the service succeeds on. -/
theorem avisos_e_documento_parcial (api : String → List String → Except String (List Trecho))
    (links : List String) :
    (obter_transcricao_youtube api links).2
      = links.filterMap (fun link =>
          match api (extrair_video_id link) ["pt", "en"] with
          | Except.ok _ => none
          | Except.error e =>
            some ("Erro ao processar o vídeo: " ++ link ++ ". Erro: " ++ e))
    ∧ ∀ link ∈ links, ∀ ts : List Trecho,
        api (extrair_video_id link) ["pt", "en"] = Except.ok ts →
        ∃ a b, (obter_transcricao_youtube api links).1
          = a ++ String.join (ts.map (fun t => t.text ++ " ")) ++ b := by
  constructor
  · rw [obter_caracterizacao]
    rfl
  · intro link hmem ts hts
    rw [obter_caracterizacao]
    obtain ⟨l1, l2, rfl⟩ := List.append_of_mem hmem
    refine ⟨String.join (l1.map (contribuicao api)),
      String.join (l2.map (contribuicao api)), ?_⟩
    rw [List.map_append, string_join_append, List.map_cons, string_join_cons]
    have hc : contribuicao api link = String.join (ts.map (fun t => t.text ++ " ")) := by
      simp [contribuicao, hts]
    rw [hc, String.append_assoc]

/-- Witness for C3: the mixed two-link scenario — one success, one failure,
exactly one warning naming the failing link, document containing the
successful link's text. -/
theorem avisos_e_documento_parcial_witness :
    (obter_transcricao_youtube api_mista
        ["https://www.youtube.com/watch?v=ok1", "https://www.youtube.com/watch?v=bad"]).2
      = ["Erro ao processar o vídeo: https://www.youtube.com/watch?v=bad. Erro: TranscriptsDisabled"]
    ∧ ∃ a b,
        (obter_transcricao_youtube api_mista
            ["https://www.youtube.com/watch?v=ok1", "https://www.youtube.com/watch?v=bad"]).1
          = a ++ String.join ([Trecho.mk "bom", Trecho.mk "dia"].map (fun t => t.text ++ " ")) ++ b := by
  have h := avisos_e_documento_parcial api_mista
    ["https://www.youtube.com/watch?v=ok1", "https://www.youtube.com/watch?v=bad"]
  refine ⟨h.1.trans (by decide), ?_⟩
  exact h.2 "https://www.youtube.com/watch?v=ok1" (by decide)
    [Trecho.mk "bom", Trecho.mk "dia"] rfl

/-- Counterexample for C5 as stated: with one successful link with the
single fragment `"ola"`, the program returns `"ola "` (each fragment text is
followed by one space), not the space-separated concatenation `"ola"`. -/
theorem transcricao_espaco_final :
    textos_com_sucesso api_um ["https://www.youtube.com/watch?v=abc"] = ["ola"]
    ∧ (obter_transcricao_youtube api_um ["https://www.youtube.com/watch?v=abc"]).1 = "ola "
    ∧ (obter_transcricao_youtube api_um ["https://www.youtube.com/watch?v=abc"]).1
        ≠ String.intercalate " "
            (textos_com_sucesso api_um ["https://www.youtube.com/watch?v=abc"]) := by
  refine ⟨by decide, by decide, by decide⟩

/-- Claim C5 as amended: the document is the concatenation of all fragment
texts of all successfully processed links, in link order, each text followed
by one space (hence one trailing space whenever any fragment exists); when
no link succeeds the empty string is returned. -/
theorem documento_concatenacao (api : String → List String → Except String (List Trecho))
    (links : List String) :
    (obter_transcricao_youtube api links).1
      = String.join ((textos_com_sucesso api links).map (fun t => t ++ " "))
    ∧ ((∀ link ∈ links, e_sucesso (api (extrair_video_id link) ["pt", "en"]) = false) →
        (obter_transcricao_youtube api links).1 = "") := by
  constructor
  · rw [obter_caracterizacao]
    exact textos_join api links
  · intro h
    rw [obter_caracterizacao]
    show String.join (links.map (contribuicao api)) = ""
    apply string_join_vazios
    intro x hx
    obtain ⟨link, hlink, rfl⟩ := List.mem_map.mp hx
    have := h link hlink
    rw [contribuicao]
    cases hapi : api (extrair_video_id link) ["pt", "en"] with
    | ok ts =>
      rw [hapi] at this
      exact absurd this (by simp [e_sucesso])
    | error e => rfl

/-- Witness for C5: the success formula at a concrete link, and the
empty-document conclusion when the only link fails. -/
theorem documento_concatenacao_witness :
    (obter_transcricao_youtube api_um ["https://www.youtube.com/watch?v=abc"]).1
      = String.join ((textos_com_sucesso api_um
          ["https://www.youtube.com/watch?v=abc"]).map (fun t => t ++ " "))
    ∧ (∀ link ∈ (["https://www.youtube.com/watch?v=nao"] : List String),
        e_sucesso (api_um (extrair_video_id link) ["pt", "en"]) = false)
    ∧ (obter_transcricao_youtube api_um ["https://www.youtube.com/watch?v=nao"]).1 = "" := by
  refine ⟨(documento_concatenacao api_um ["https://www.youtube.com/watch?v=abc"]).1,
    by decide,
    (documento_concatenacao api_um ["https://www.youtube.com/watch?v=nao"]).2 (by decide)⟩

/-! ### The prompt assembler -/

set_option maxRecDepth 4000 in
theorem template_qa_parse :
    parseFormatAuxF template_qa.toList.length [] template_qa.toList
      = [SegFmt.lit parte_inicial, SegFmt.campo "fragmentos",
         SegFmt.lit parte_meio, SegFmt.campo "pergunta", SegFmt.lit parte_final] := by
  decide

theorem montar_prompt_decomposicao (fragmentos : List Documento) (pergunta : String) :
    montar_prompt fragmentos pergunta
      = parte_inicial
        ++ String.intercalate "\n"
            ((List.enumFrom 1 fragmentos).map
              (fun par => Nat.repr par.1 ++ ". " ++ par.2.page_content ++ "\n"))
        ++ parte_meio ++ pergunta ++ parte_final := by
  rw [montar_prompt, pyFormat, template_qa_parse]
  rw [List.map_cons, List.map_cons, List.map_cons, List.map_cons, List.map_cons, List.map_nil]
  rw [string_join_cons, string_join_cons, string_join_cons, string_join_cons, string_join_cons]
  rw [show String.join ([] : List String) = "" from rfl, String.append_empty]
  simp only [if_pos, if_neg, String.append_assoc]
  rfl

/-- Claim C6: `montar_prompt` is pure string formatting with no error
conditions — for every chunk list and question it returns the fixed
instructional template with the chunks substituted as a 1-indexed,
newline-separated listing of their texts and the question substituted
verbatim. -/
theorem montar_prompt_substituicao (fragmentos : List Documento) (pergunta : String) :
    montar_prompt fragmentos pergunta
      = parte_inicial
        ++ String.intercalate "\n"
            ((List.enumFrom 1 fragmentos).map
              (fun par => Nat.repr par.1 ++ ". " ++ par.2.page_content ++ "\n"))
        ++ parte_meio ++ pergunta ++ parte_final :=
  montar_prompt_decomposicao fragmentos pergunta

set_option maxRecDepth 4000 in
theorem montar_prompt_ne (fragmentos : List Documento) (pergunta : String) :
    montar_prompt fragmentos pergunta ≠ pergunta := by
  intro h
  have hl := congrArg String.length h
  rw [montar_prompt_decomposicao] at hl
  simp only [String.length_append] at hl
  have h1 : 0 < parte_inicial.length := by decide
  omega

/-! ### The UI handlers -/

/-- Claim C7: submitting an empty question (or no question) is a silent
no-op — the whole session state, chat history and vector index included, is
returned unchanged, no error is produced, and since the result does not
depend on the `busca` and `invocar` oracles at all, neither retrieval nor
chat completion is consulted. -/
theorem pergunta_vazia_noop (busca : BaseVetores → String → Nat → List Documento)
    (invocar : List Message → Except String String) (st : SessionState) :
    enviar_pergunta busca invocar st (some "") = (st, none)
    ∧ enviar_pergunta busca invocar st none = (st, none) := by
  obtain ⟨hist, bv⟩ := st
  cases bv <;> exact ⟨rfl, rfl⟩

theorem dropLast_append_um {α : Type} (l : List α) (a : α) : (l ++ [a]).dropLast = l :=
  List.dropLast_concat

theorem getLastD_append_um {α : Type} (l : List α) (a d : α) : (l ++ [a]).getLastD d = a :=
  List.getLastD_concat ..

/-- Claim C1: when the chat invocation on the history extended with the
assembled prompt succeeds, the question cycle grows the chat history by
exactly two messages — the raw user question then the assistant answer —
and the assembled prompt message, although it was the last element of the
list handed to the model, is not part of the final history. -/
theorem ciclo_pergunta (busca : BaseVetores → String → Nat → List Documento)
    (invocar : List Message → Except String String)
    (st : SessionState) (base : BaseVetores) (p r : String)
    (hbase : st.base_vetores = some base) (hp : p ≠ "")
    (hinv : invocar (st.historico_chat
        ++ [Message.human (montar_prompt (busca base p 3) p)]) = Except.ok r) :
    (enviar_pergunta busca invocar st (some p)).1.historico_chat
        = st.historico_chat ++ [Message.human p, Message.ai r]
    ∧ (enviar_pergunta busca invocar st (some p)).1.historico_chat.length
        = st.historico_chat.length + 2
    ∧ (Message.human (montar_prompt (busca base p 3) p) ∉ st.historico_chat →
        Message.human (montar_prompt (busca base p 3) p)
          ∉ (enviar_pergunta busca invocar st (some p)).1.historico_chat) := by
  have he : (enviar_pergunta busca invocar st (some p)).1.historico_chat
      = st.historico_chat ++ [Message.human p, Message.ai r] := by
    rw [enviar_pergunta, hbase]
    simp only [if_neg hp, hinv, dropLast_append_um]
  refine ⟨he, by rw [he]; simp [List.length_append], ?_⟩
  intro hnot hmem
  rw [he] at hmem
  rcases List.mem_append.mp hmem with hmem | hmem
  · exact hnot hmem
  · rcases List.mem_cons.mp hmem with hmem | hmem
    · exact montar_prompt_ne (busca base p 3) p (Message.human.inj hmem)
    · rcases List.mem_cons.mp hmem with hmem | hmem
      · exact Message.noConfusion hmem
      · exact List.not_mem_nil _ hmem

/-- Witness for C1 at a concrete state, retrieval oracle and chat oracle. -/
theorem ciclo_pergunta_witness :
    (enviar_pergunta busca_teste invocar_ok st_teste (some "qual o tema?")).1.historico_chat
      = st_teste.historico_chat
        ++ [Message.human "qual o tema?", Message.ai "resposta teste"] :=
  (ciclo_pergunta busca_teste invocar_ok st_teste base_teste "qual o tema?" "resposta teste"
    rfl (by decide) rfl).1

/-- Claim C9: when the chat invocation raises, the session state is not
restored — the history keeps the just-appended assembled prompt as its last
message (question and answer are appended only after a successful call) and
the error surfaces. -/
theorem falha_mantem_prompt (busca : BaseVetores → String → Nat → List Documento)
    (invocar : List Message → Except String String)
    (st : SessionState) (base : BaseVetores) (p e : String)
    (hbase : st.base_vetores = some base) (hp : p ≠ "")
    (hinv : invocar (st.historico_chat
        ++ [Message.human (montar_prompt (busca base p 3) p)]) = Except.error e) :
    (enviar_pergunta busca invocar st (some p)).1.historico_chat
        = st.historico_chat ++ [Message.human (montar_prompt (busca base p 3) p)]
    ∧ (enviar_pergunta busca invocar st (some p)).2 = some e
    ∧ ((enviar_pergunta busca invocar st (some p)).1.historico_chat).getLastD (Message.ai "")
        = Message.human (montar_prompt (busca base p 3) p) := by
  have he : enviar_pergunta busca invocar st (some p)
      = ({ st with historico_chat :=
            st.historico_chat ++ [Message.human (montar_prompt (busca base p 3) p)] }, some e) := by
    rw [enviar_pergunta, hbase]
    simp only [if_neg hp, hinv]
  refine ⟨by rw [he], by rw [he], ?_⟩
  rw [he]
  exact getLastD_append_um ..

/-- Witness for C9 at a concrete state and a failing chat oracle. -/
theorem falha_mantem_prompt_witness :
    (enviar_pergunta busca_teste invocar_erro st_teste (some "qual o tema?")).2
      = some "falha de rede" :=
  (falha_mantem_prompt busca_teste invocar_erro st_teste base_teste "qual o tema?"
    "falha de rede" rfl (by decide) rfl).2.1

/-- Counterexample for C4 as stated: pressing "Processar Vídeos" twice from
the fresh session leaves the history with two greeting messages, so it is
not true that after every such action the history has length exactly 1. -/
theorem processar_videos_repetido :
    (processar_videos api_falha ""
        (processar_videos api_falha "" ⟨[], none⟩)).historico_chat.length = 2 := by
  decide

/-- Claim C4 as amended: every "Processar Vídeos" action appends exactly one
assistant greeting to the existing history; in particular, the action taken
in the initial (empty-history) session state leaves the history of length 1,
the greeting alone. -/
theorem processar_videos_saudacao (api : String → List String → Except String (List Trecho))
    (links : String) (st : SessionState) :
    (processar_videos api links st).historico_chat
        = st.historico_chat ++ [Message.ai saudacao]
    ∧ (st.historico_chat = [] →
        (processar_videos api links st).historico_chat = [Message.ai saudacao]) := by
  refine ⟨rfl, ?_⟩
  intro h
  show st.historico_chat ++ [Message.ai saudacao] = _
  rw [h, List.nil_append]

/-- Witness for C4: the first processing action from the fresh state. -/
theorem processar_videos_saudacao_witness :
    (processar_videos api_falha "" ⟨[], none⟩).historico_chat = [Message.ai saudacao] :=
  (processar_videos_saudacao api_falha "" ⟨[], none⟩).2 rfl

set_option maxRecDepth 100000 in
/-- Claim C8, on a concrete 1000-character space-separated document (91
distinct ten-character words): chunking with size 500 / overlap 200
produces chunks of at most 500 characters whose boundaries fall on spaces —
each chunk is the space-join of a contiguous window of the document's words
(words 1-45, 28-72, 55-91) — each chunk after the first repeats the trailing
197 characters of its predecessor (the largest space-aligned span within the
200-character overlap budget), and the chunks cover the document without
gaps: the document is recovered exactly by appending each later chunk minus
its 197-character overlap. -/
theorem divisao_documento_1000 :
    doc1000.length = 1000
    ∧ dividir_texto 500 200 doc1000
        = [String.intercalate " " (palavras_doc.take 45),
           String.intercalate " " ((palavras_doc.drop 27).take 45),
           String.intercalate " " (palavras_doc.drop 54)]
    ∧ (∀ c ∈ dividir_texto 500 200 doc1000, c.length ≤ 500)
    ∧ ((dividir_texto 500 200 doc1000).getD 1 "").toList.take 197
        = ((dividir_texto 500 200 doc1000).getD 0 "").toList.drop 297
    ∧ ((dividir_texto 500 200 doc1000).getD 2 "").toList.take 197
        = ((dividir_texto 500 200 doc1000).getD 1 "").toList.drop 297
    ∧ doc1000
        = (dividir_texto 500 200 doc1000).getD 0 ""
          ++ String.mk (((dividir_texto 500 200 doc1000).getD 1 "").toList.drop 197)
          ++ String.mk (((dividir_texto 500 200 doc1000).getD 2 "").toList.drop 197) := by
  refine ⟨by decide, by decide, by decide, by decide, by decide, by decide⟩
